import Mathlib

set_option maxHeartbeats 1000000

/-!
Shallow embedding of the compressed-tensors scheme-selection module
(python/sglang/srt/layers/quantization/compressed_tensors/compressed_tensors.py).

The module classifies a (weight quantization, input quantization, sparsity)
triple into a concrete numeric-kernel scheme. The embedding below translates
the branch logic of that file. Parts of the repository that the file calls
but that are not present in the source tree (the scheme classes with their
minimum device capabilities, and the helper
is_activation_quantization_format) are modelled from the spec and marked so
in their doc comments. Logging calls are omitted; Python exceptions are
modelled with Except String.
-/

deriving instance DecidableEq for Except

/-- Quantization type enum of the external compressed_tensors library
(QuantizationType: FLOAT or INT). -/
inductive QuantizationType where
  | float
  | int
deriving DecidableEq, Repr

/-- Quantization strategy enum of the external compressed_tensors library
(QuantizationStrategy: TENSOR, CHANNEL, GROUP, BLOCK, TOKEN). The source
compares the stored enum both against other enum members and against their
string values; since the Python enum is a str-enum those comparisons agree,
so plain equality on this inductive models both. -/
inductive QuantizationStrategy where
  | tensor
  | channel
  | group
  | block
  | token
deriving DecidableEq, Repr

/-- QuantizationArgs of the external compressed_tensors library, restricted
to the fields that the translated module reads. -/
structure QuantizationArgs where
  num_bits : Nat
  type : QuantizationType
  strategy : QuantizationStrategy
  symmetric : Bool
  dynamic : Bool
  group_size : Option Int
  actorder : Option Bool
deriving DecidableEq, Repr

/-- SparsityCompressionConfig of the external compressed_tensors library,
restricted to the two fields the translated module reads. The format and
sparsity_structure fields are plain strings in the library; the module
compares them against the string values of the CompressionFormat and
SparsityStructure enums. -/
structure SparsityCompressionConfig where
  format : String
  sparsity_structure : String
deriving DecidableEq, Repr

/-- String value of CompressionFormat.dense. -/
def CompressionFormat.dense : String := "dense"

/-- String value of CompressionFormat.sparse_24_bitmask. -/
def CompressionFormat.sparse_24_bitmask : String := "sparse-24-bitmask"

/-- String value of CompressionFormat.marlin_24. -/
def CompressionFormat.marlin_24 : String := "marlin-24"

/-- String value of CompressionFormat.pack_quantized. -/
def CompressionFormat.pack_quantized : String := "pack-quantized"

/-- String value of CompressionFormat.naive_quantized. -/
def CompressionFormat.naive_quantized : String := "naive-quantized"

/-- String value of CompressionFormat.int_quantized. -/
def CompressionFormat.int_quantized : String := "int-quantized"

/-- String value of CompressionFormat.float_quantized. -/
def CompressionFormat.float_quantized : String := "float-quantized"

/-- String value of SparsityStructure.TWO_FOUR. -/
def SparsityStructure.TWO_FOUR : String := "2:4"

/-- Modelled from the spec: the predicate
is_activation_quantization_format(format) of
sglang.srt.layers.quantization.compressed_tensors.utils (not present in the
source tree), keyed on the format string. The activation-quantizing formats
are the naive-, int- and float-quantized families; the weight-only storage
formats (dense, marlin-24, pack-quantized, sparse-24-bitmask) are not
activation-quantizing. -/
def is_activation_quantization_format (fmt : String) : Bool :=
  decide (fmt ∈ [CompressionFormat.naive_quantized,
    CompressionFormat.int_quantized, CompressionFormat.float_quantized])

/-- Modelled from the spec: WNA16_SUPPORTED_BITS of the external vllm
wNa16 scheme module (bound by the try-import of the source file when vllm
is available); the spec describes the weight-only N-bit schemes as 4/8-bit
grouped or channel. The analogous W4A16SPARSE24_SUPPORTED_BITS constant is
NOT bound by any import of the module and is therefore not modelled as a
value: touching it raises NameError. -/
def WNA16_SUPPORTED_BITS : List Nat := [4, 8]

/-- The scheme variants the translated module can actually construct, as a
closed sum. Each constructor carries exactly the arguments the module
passes to the corresponding scheme class constructor. The module source
also references CompressedTensors24, CompressedTensorsW4A16Sparse24 and
CompressedTensorsW8A8Int8, but its import block never binds those names
(from the schemes module only CompressedTensorsScheme,
CompressedTensorsW8A8Fp8 and CompressedTensorsW8A16Fp8 are bound, and from
vllm only WNA16_SUPPORTED_BITS and CompressedTensorsWNA16), so the
branches that would build them raise NameError at runtime; those branches
are modelled as errors, not as constructors. -/
inductive CompressedTensorsScheme where
  | CompressedTensorsWNA16 (num_bits : Nat) (strategy : QuantizationStrategy)
      (group_size : Option Int) (actorder : Option Bool)
  | CompressedTensorsW8A8Fp8 (strategy : QuantizationStrategy) (is_static_input_scheme : Bool)
  | CompressedTensorsW8A16Fp8 (strategy : QuantizationStrategy) (is_static_input_scheme : Bool)
deriving DecidableEq, Repr

/-- Modelled from the spec: each external scheme class exposes a minimum
device capability (spec section 6, collaborator (e)). The numeric values
live outside the source tree, so they are kept abstract as a record of
parameters; theorems quantify over them. -/
structure SchemeMinCaps where
  wna16 : Nat
  w8a8fp8 : Nat
  w8a16fp8 : Nat
deriving DecidableEq, Repr

/-- Modelled from the spec: get_min_capability of the selected scheme,
looked up in the SchemeMinCaps parameter record. -/
def CompressedTensorsScheme.get_min_capability (mc : SchemeMinCaps) :
    CompressedTensorsScheme → Nat
  | .CompressedTensorsWNA16 _ _ _ _ => mc.wna16
  | .CompressedTensorsW8A8Fp8 _ _ => mc.w8a8fp8
  | .CompressedTensorsW8A16Fp8 _ _ => mc.w8a16fp8

/-- DeviceCapability named tuple of the source file. -/
structure DeviceCapability where
  major : Nat
  minor : Nat
deriving DecidableEq, Repr

/-- DeviceCapability.to_int: express device capability as the integer
major * 10 + minor. The source asserts 0 <= minor < 10; the claims only
evaluate it on single-digit minors. -/
def DeviceCapability.to_int (d : DeviceCapability) : Nat :=
  d.major * 10 + d.minor

/-- CompressedTensorsConfig._check_scheme_supported. The source reads the
device capability from the CUDA runtime; here it is passed as the
capability argument. With error set, an unsupported scheme raises a
RuntimeError naming both the required and the actual capability. -/
def _check_scheme_supported (capability min_capability : Nat) (error : Bool) :
    Except String Bool :=
  let supported := decide (min_capability ≤ capability)
  if error && !supported then
    Except.error ("Quantization scheme is not supported for the current GPU. Min capability: "
      ++ toString min_capability ++ ". Current capability: " ++ toString capability ++ ".")
  else
    Except.ok supported

/-- CompressedTensorsConfig._is_static_tensor_w8a8. -/
def _is_static_tensor_w8a8 (weight_quant input_quant : QuantizationArgs) : Bool :=
  let is_8_bits := decide (weight_quant.num_bits = input_quant.num_bits)
    && decide (input_quant.num_bits = 8)
  let weight_strategy := decide (weight_quant.strategy = QuantizationStrategy.tensor)
    || decide (weight_quant.strategy = QuantizationStrategy.channel)
  let is_tensor := weight_strategy && decide (input_quant.strategy = QuantizationStrategy.tensor)
  let is_static := !weight_quant.dynamic && !input_quant.dynamic
  is_8_bits && is_tensor && weight_quant.symmetric && is_static

/-- CompressedTensorsConfig._is_dynamic_token_w8a8. -/
def _is_dynamic_token_w8a8 (weight_quant input_quant : QuantizationArgs) : Bool :=
  let is_8_bits := decide (weight_quant.num_bits = input_quant.num_bits)
    && decide (input_quant.num_bits = 8)
  let weight_strategy := decide (weight_quant.strategy = QuantizationStrategy.tensor)
    || decide (weight_quant.strategy = QuantizationStrategy.channel)
  let is_token := weight_strategy && decide (input_quant.strategy = QuantizationStrategy.token)
  let is_dynamic := !weight_quant.dynamic && input_quant.dynamic
  is_8_bits && is_token && weight_quant.symmetric && is_dynamic

/-- CompressedTensorsConfig._is_fp8_w8a8. The source checks both arguments
for None before reading their fields, so the arguments are optional here. -/
def _is_fp8_w8a8 (weight_quant input_quant : Option QuantizationArgs) : Bool :=
  match weight_quant, input_quant with
  | some wq, some iq =>
    let is_floating_point := decide (wq.type = QuantizationType.float)
      && decide (iq.type = QuantizationType.float)
    let is_symmetric_weight := wq.symmetric
    let is_static_weight := !wq.dynamic
    let is_per_tensor_or_channel_weight := decide (wq.strategy = QuantizationStrategy.tensor)
      || decide (wq.strategy = QuantizationStrategy.channel)
    if !(is_floating_point && is_symmetric_weight && is_static_weight
        && is_per_tensor_or_channel_weight) then
      false
    else if iq.dynamic then
      true
    else
      iq.symmetric && decide (iq.strategy = QuantizationStrategy.tensor)
  | _, _ => false

/-- CompressedTensorsConfig._is_fp8_w8a16. The weight argument is checked
for None; the input argument is ignored. -/
def _is_fp8_w8a16 (weight_quant input_quant : Option QuantizationArgs) : Bool :=
  match weight_quant, input_quant with
  | none, _ => false
  | some wq, _ =>
    if !(decide (wq.type = QuantizationType.float)) then
      false
    else
      let is_symmetric_weight := wq.symmetric
      let is_static_weight := !wq.dynamic
      let is_per_tensor_or_channel_weight := decide (wq.strategy = QuantizationStrategy.tensor)
        || decide (wq.strategy = QuantizationStrategy.channel)
      is_symmetric_weight && is_static_weight && is_per_tensor_or_channel_weight

/-- CompressedTensorsConfig._is_wNa16_group_channel. The weight argument is
read unconditionally in the source (callers guarantee it is present); the
input argument is only tested for None. -/
def _is_wNa16_group_channel (weight_quant : QuantizationArgs)
    (input_quant : Option QuantizationArgs) : Bool :=
  let input_quant_none := input_quant.isNone
  let is_symmetric := weight_quant.symmetric
  let is_channel_group := decide (weight_quant.strategy = QuantizationStrategy.channel)
    || decide (weight_quant.strategy = QuantizationStrategy.group)
  let is_static := !weight_quant.dynamic
  is_channel_group && input_quant_none && is_symmetric && is_static

/-- CompressedTensorsConfig._get_scheme_from_parts. The configuration state
the method reads (self.quant_format), the module-level VLLM_AVAILABLE flag,
the device capability and the external minimum capabilities are passed as
arguments. When the wNa16 branch matches but neither of its format
sub-branches does, control falls through to the activation-format section,
exactly as in the source; Python attribute access on a None input there is
modelled as an error. Inside the wNa16 branch, the marlin-24 condition
short-circuits: the format comparison is evaluated first, and only when it
is true does Python evaluate the membership test, whose right operand
W4A16SPARSE24_SUPPORTED_BITS is an unbound name, raising NameError; the
static and dynamic INT8 branches likewise raise NameError at the unbound
CompressedTensorsW8A8Int8 once their predicate holds. -/
def _get_scheme_from_parts (mc : SchemeMinCaps) (quant_format : String) (capability : Nat)
    (vllm_available : Bool) (weight_quant : QuantizationArgs)
    (input_quant : Option QuantizationArgs) : Except String CompressedTensorsScheme :=
  let mixed_precision : Option (Except String CompressedTensorsScheme) :=
    if _is_wNa16_group_channel weight_quant input_quant then
      if !vllm_available then
        some (Except.error
          "ImportError: vllm is not installed, to use CompressedTensorsW4A16Sparse24 and CompressedTensorsWNA16, please install vllm")
      else if decide (quant_format = CompressionFormat.marlin_24) then
        some (Except.error "NameError: name W4A16SPARSE24_SUPPORTED_BITS is not defined")
      else if decide (quant_format = CompressionFormat.pack_quantized)
          && decide (weight_quant.num_bits ∈ WNA16_SUPPORTED_BITS) then
        some (Except.ok (.CompressedTensorsWNA16 weight_quant.num_bits weight_quant.strategy
          weight_quant.group_size weight_quant.actorder))
      else
        none
    else
      none
  match mixed_precision with
  | some result => result
  | none =>
    if is_activation_quantization_format quant_format then
      if _is_fp8_w8a8 (some weight_quant) input_quant then
        match _check_scheme_supported capability mc.w8a8fp8 false with
        | Except.error e => Except.error e
        | Except.ok is_fp8_w8a8_supported =>
          if is_fp8_w8a8_supported then
            Except.ok (.CompressedTensorsW8A8Fp8 weight_quant.strategy
              (match input_quant with
                | none => false
                | some iq => !iq.dynamic))
          else
            match input_quant with
            | none => Except.error "AttributeError: NoneType object has no attribute dynamic"
            | some iq =>
              Except.ok (.CompressedTensorsW8A16Fp8 weight_quant.strategy (!iq.dynamic))
      else if _is_fp8_w8a16 (some weight_quant) input_quant then
        if !vllm_available then
          Except.error
            "ImportError: vllm is not installed, to use CompressedTensorsW8A16Fp8, please install vllm"
        else
          Except.ok (.CompressedTensorsW8A16Fp8 weight_quant.strategy
            (match input_quant with
              | none => false
              | some iq => !iq.dynamic))
      else
        match input_quant with
        | none => Except.error "AttributeError: NoneType object has no attribute num_bits"
        | some iq =>
          if _is_static_tensor_w8a8 weight_quant iq then
            Except.error "NameError: name CompressedTensorsW8A8Int8 is not defined"
          else if _is_dynamic_token_w8a8 weight_quant iq then
            Except.error "NameError: name CompressedTensorsW8A8Int8 is not defined"
          else
            Except.error "NotImplementedError: No compressed-tensors compatible scheme was found."
    else
      Except.error "NotImplementedError: No compressed-tensors compatible scheme was found."

/-- CompressedTensorsConfig.supports_cutlass_24. The source asserts that
weight_quant and input_quant are not None after excluding the two earlier
cases; the only remaining shape that reaches the asserts with a None value
is weight absent / input present, which raises an AssertionError, modelled
as an error result. -/
def supports_cutlass_24 (weight_quant input_quant : Option QuantizationArgs)
    (sparsity_scheme : Option SparsityCompressionConfig) : Except String Bool :=
  match sparsity_scheme with
  | none => Except.ok false
  | some ss =>
    let is_valid_sparsity_structure :=
      decide (ss.sparsity_structure = SparsityStructure.TWO_FOUR)
    let valid_compressors := [CompressionFormat.dense, CompressionFormat.sparse_24_bitmask]
    let is_valid_sparsity := is_valid_sparsity_structure
      && decide (ss.format ∈ valid_compressors)
    if !is_valid_sparsity then
      Except.ok false
    else
      match weight_quant, input_quant with
      | none, none => Except.ok true
      | some _, none => Except.ok false
      | none, some _ => Except.error "AssertionError: weight_quant is not None"
      | some wq, some iq =>
        let supported_weight_quant_strategies :=
          [QuantizationStrategy.tensor, QuantizationStrategy.channel]
        if !(decide (wq.strategy ∈ supported_weight_quant_strategies)) then
          Except.ok false
        else
          let supported_input_quant_strategies :=
            [QuantizationStrategy.tensor, QuantizationStrategy.token]
          if !(decide (iq.strategy ∈ supported_input_quant_strategies)) then
            Except.ok false
          else
            Except.ok (decide (wq.num_bits = iq.num_bits) && decide (iq.num_bits = 8))

/-- CompressedTensorsConfig.get_scheme, after target matching. The target
and sparsity-target matching (find_matched_target, a repository utility not
in the source tree) is abstracted: the matched weight_quant, input_quant
and sparsity_scheme are the inputs of this function, exactly the values the
source computes before the first branch. The warning-once logging on the
unquantized fallback is omitted. In the 2:4 branch the source computes
model_compression_config and then calls CompressedTensors24, a name that
is never bound by any import of the module, so with vllm available the
branch raises NameError before the capability gate; that is modelled as an
error. -/
def get_scheme (mc : SchemeMinCaps) (quant_format : String) (capability : Nat)
    (vllm_available : Bool) (weight_quant input_quant : Option QuantizationArgs)
    (sparsity_scheme : Option SparsityCompressionConfig) :
    Except String (Option CompressedTensorsScheme) :=
  match supports_cutlass_24 weight_quant input_quant sparsity_scheme with
  | Except.error e => Except.error e
  | Except.ok true =>
    if !vllm_available then
      Except.error "ImportError: vllm is not installed, to use CompressedTensors24, please install vllm"
    else
      Except.error "NameError: name CompressedTensors24 is not defined"
  | Except.ok false =>
    match weight_quant with
    | none => Except.ok none
    | some wq =>
      match _get_scheme_from_parts mc quant_format capability vllm_available wq input_quant with
      | Except.error e => Except.error e
      | Except.ok scheme =>
        match _check_scheme_supported capability (scheme.get_min_capability mc) true with
        | Except.error e => Except.error e
        | Except.ok _ => Except.ok (some scheme)

/-- Kind of layer passed to get_quant_method, abstracting the isinstance
checks of the source (LinearBase, FusedMoE, anything else). -/
inductive LayerKind where
  | linearBase
  | fusedMoE
  | other
deriving DecidableEq, Repr

/-- Result of get_quant_method, as a closed sum of the method objects the
source can return. -/
inductive QuantMethod where
  | unquantizedLinearMethod
  | compressedTensorsLinearMethod (scheme : CompressedTensorsScheme)
  | compressedTensorsMoEMethod
deriving DecidableEq, Repr

/-- CompressedTensorsConfig.get_quant_method. The should_ignore_layer
predicate (a repository utility not in the source tree) is abstracted as
the boolean should_ignore; the layer/name pair is abstracted into the
matched quantization and sparsity arguments fed to get_scheme, as in the
get_scheme model. -/
def get_quant_method (mc : SchemeMinCaps) (quant_format : String) (capability : Nat)
    (vllm_available : Bool) (should_ignore : Bool) (kind : LayerKind)
    (weight_quant input_quant : Option QuantizationArgs)
    (sparsity_scheme : Option SparsityCompressionConfig) :
    Except String (Option QuantMethod) :=
  if should_ignore then
    Except.ok (some QuantMethod.unquantizedLinearMethod)
  else
    match kind with
    | LayerKind.linearBase =>
      match get_scheme mc quant_format capability vllm_available
          weight_quant input_quant sparsity_scheme with
      | Except.error e => Except.error e
      | Except.ok none => Except.ok (some QuantMethod.unquantizedLinearMethod)
      | Except.ok (some scheme) =>
        Except.ok (some (QuantMethod.compressedTensorsLinearMethod scheme))
    | LayerKind.fusedMoE => Except.ok (some QuantMethod.compressedTensorsMoEMethod)
    | LayerKind.other => Except.ok none

/-- Left-to-right, non-overlapping replacement of the pattern by the
replacement in a character list, with explicit fuel for structural
recursion; models Python str.replace. -/
def replaceListAux (pat rep : List Char) : Nat → List Char → List Char
  | _, [] => []
  | 0, s => s
  | fuel + 1, c :: rest =>
    if pat ≠ [] ∧ pat.isPrefixOf (c :: rest) then
      rep ++ replaceListAux pat rep fuel ((c :: rest).drop pat.length)
    else
      c :: replaceListAux pat rep fuel rest

/-- Python s.replace(pat, rep) on the character lists of the strings. -/
def stringReplace (s pat rep : String) : String :=
  String.mk (replaceListAux pat.data rep.data s.data.length s.data)

/-- Python substring membership (pat in s) on character lists. -/
def containsSublist (pat : List Char) : List Char → Bool
  | [] => pat.isEmpty
  | c :: rest => pat.isPrefixOf (c :: rest) || containsSublist pat rest

/-- Python s.endswith(suffix) on character lists. -/
def stringEndsWith (s suffix : String) : Bool :=
  suffix.data.isSuffixOf s.data

/-- Python (pat in s) on strings. -/
def stringContains (s pat : String) : Bool :=
  containsSublist pat.data s.data

/-- CompressedTensorsConfig.get_cache_scale: map a k/v-projection
output-scale parameter name to the attention-cache-scale name, or None when
no projection marker is present. -/
def get_cache_scale (name : String) : Option String :=
  if stringEndsWith name ".output_scale" && stringContains name ".k_proj" then
    some (stringReplace name ".k_proj.output_scale" ".attn.k_scale")
  else if stringEndsWith name ".output_scale" && stringContains name ".v_proj" then
    some (stringReplace name ".v_proj.output_scale" ".attn.v_scale")
  else
    none

/-- Sample minimum-capability record used by concrete witnesses. -/
def sampleMinCaps : SchemeMinCaps :=
  ⟨70, 80, 80⟩

/-- Sample 2:4 sparsity configuration with dense storage format. -/
def sparsity24Dense : SparsityCompressionConfig :=
  ⟨"dense", "2:4"⟩

lemma check_scheme_supported_ok_le {capability min_capability : Nat} {b : Bool}
    (h : _check_scheme_supported capability min_capability true = Except.ok b) :
    min_capability ≤ capability := by
  by_cases hle : min_capability ≤ capability
  · exact hle
  · simp [_check_scheme_supported, hle] at h

/-- Claim C7: get_cache_scale maps a k/v-projection output-scale parameter
name to the corresponding attention-cache-scale name and returns none when
no projection marker is present. -/
theorem claim_C7_get_cache_scale :
    get_cache_scale "model.layers.3.self_attn.k_proj.output_scale" =
        some "model.layers.3.self_attn.attn.k_scale" ∧
      get_cache_scale "model.layers.3.self_attn.v_proj.output_scale" =
        some "model.layers.3.self_attn.attn.v_scale" ∧
      get_cache_scale "x.output_scale" = none :=
  ⟨by decide, by decide, by decide⟩

/-- Claim C10: on the input shape weight_quant absent, input_quant present,
sparsity scheme with 2:4 structure and dense or sparse-24-bitmask format,
supports_cutlass_24 fails its internal assertion instead of returning a
boolean, and it returns a boolean exactly when this shape is excluded. -/
theorem claim_C10_assertion_failure :
    (supports_cutlass_24 none
        (some ⟨8, QuantizationType.int, QuantizationStrategy.token, true, true, none, none⟩)
        (some sparsity24Dense) = Except.error "AssertionError: weight_quant is not None") ∧
    (∀ (wq iq : Option QuantizationArgs) (ss : Option SparsityCompressionConfig),
      (∃ e, supports_cutlass_24 wq iq ss = Except.error e) ↔
        (wq = none ∧ iq ≠ none ∧ ∃ s, ss = some s ∧
          s.sparsity_structure = SparsityStructure.TWO_FOUR ∧
          (s.format = CompressionFormat.dense ∨
            s.format = CompressionFormat.sparse_24_bitmask))) := by
  constructor
  · decide
  · intro wq iq ss
    cases ss with
    | none => simp [supports_cutlass_24]
    | some s =>
      by_cases h1 : s.sparsity_structure = SparsityStructure.TWO_FOUR
      · by_cases h2 : s.format ∈ [CompressionFormat.dense, CompressionFormat.sparse_24_bitmask]
        · cases wq <;> cases iq <;>
            simp_all [supports_cutlass_24] <;>
            split <;> simp_all <;> split <;> simp_all
        · cases wq <;> cases iq <;> simp_all [supports_cutlass_24]
      · cases wq <;> cases iq <;> simp_all [supports_cutlass_24]

/-- Claim C9: whenever get_scheme returns a scheme rather than raising, the
scheme minimum capability is satisfied by the device capability; the final
gate raises an error naming required and actual values otherwise, so a
scheme with minimum capability 89 fails on device (8,0) (capability 80) and
succeeds on device (8,9) (capability 89). -/
theorem claim_C9_capability_gate :
    (∀ (mc : SchemeMinCaps) (fmt : String) (cap : Nat) (vllm : Bool)
        (wq iq : Option QuantizationArgs) (ss : Option SparsityCompressionConfig)
        (s : CompressedTensorsScheme),
      get_scheme mc fmt cap vllm wq iq ss = Except.ok (some s) →
      s.get_min_capability mc ≤ cap) ∧
    (_check_scheme_supported (DeviceCapability.mk 8 0).to_int 89 true =
      Except.error "Quantization scheme is not supported for the current GPU. Min capability: 89. Current capability: 80.") ∧
    (_check_scheme_supported (DeviceCapability.mk 8 9).to_int 89 true = Except.ok true) := by
  refine ⟨?_, by decide, by decide⟩
  intro mc fmt cap vllm wq iq ss s h
  simp only [get_scheme] at h
  split at h
  · exact absurd h (by simp)
  · split at h
    · exact absurd h (by simp)
    · exact absurd h (by simp)
  · split at h
    · exact absurd h (by simp)
    · split at h
      next e heq2 => exact absurd h (by simp)
      next scheme heq2 =>
        split at h
        next e heq3 => exact absurd h (by simp)
        next b heq3 =>
          simp only [Except.ok.injEq, Option.some.injEq] at h
          subst h
          exact check_scheme_supported_ok_le heq3

/-- Counterexample to claim C4 as stated: a weight-only quantized layer
(GROUP, symmetric, static, 4-bit) under the pack-quantized format together
with a 2:4 dense sparsity scheme does not make the classifier raise; the
2:4 branch is merely skipped and the weight-only WNA16 scheme is selected. -/
theorem claim_C4_counterexample :
    get_scheme sampleMinCaps CompressionFormat.pack_quantized 90 true
        (some ⟨4, QuantizationType.int, QuantizationStrategy.group, true, false, some 128, none⟩)
        none (some sparsity24Dense) =
      Except.ok (some (CompressedTensorsScheme.CompressedTensorsWNA16 4
        QuantizationStrategy.group (some 128) none)) := by decide

/-- Claim C4 amended: with weight_quant present and input_quant absent, the
2:4 eligibility check always returns false, so the 2:4-sparse scheme is
never selected; the classifier then runs quantization-only classification,
which raises when no weight-only branch matches (shown on an 8-bit TENSOR
weight under a non-weight-only format) but may select a weight-only scheme
when one does. -/
theorem claim_C4_amended :
    (∀ (w : QuantizationArgs) (ss : Option SparsityCompressionConfig),
      supports_cutlass_24 (some w) none ss = Except.ok false) ∧
    get_scheme sampleMinCaps CompressionFormat.dense 90 true
        (some ⟨8, QuantizationType.int, QuantizationStrategy.tensor, true, false, none, none⟩)
        none (some sparsity24Dense) =
      Except.error "NotImplementedError: No compressed-tensors compatible scheme was found." := by
  constructor
  · intro w ss
    cases ss with
    | none => simp [supports_cutlass_24]
    | some s =>
      simp only [supports_cutlass_24]
      split <;> rfl
  · decide

/-- Counterexample to claim C1 as stated: on a 2:4-eligible unquantized
layer with vllm available, get_scheme does not build the 2:4-sparse scheme
with quantized false; the branch raises a NameError because the source
module never imports CompressedTensors24. -/
theorem claim_C1_counterexample :
    get_scheme sampleMinCaps "x" 95 true none none (some sparsity24Dense) =
      Except.error "NameError: name CompressedTensors24 is not defined" := by
  decide

/-- Claim C1 amended: supports_cutlass_24 returns true exactly when the
sparsity scheme is present with 2:4 structure and dense or
sparse-24-bitmask format and either both quantization arguments are absent
or both are present, 8-bit on both sides, with weight strategy TENSOR or
CHANNEL and input strategy TENSOR or TOKEN; when it returns true,
get_scheme takes the 2:4 branch but, with vllm available, fails with a
NameError at the unbound CompressedTensors24 name instead of building the
scheme. -/
theorem claim_C1_supports_cutlass_24_spec :
    (∀ (wq iq : Option QuantizationArgs) (ss : Option SparsityCompressionConfig),
      supports_cutlass_24 wq iq ss = Except.ok true ↔
        (∃ s, ss = some s ∧ s.sparsity_structure = SparsityStructure.TWO_FOUR ∧
          (s.format = CompressionFormat.dense ∨ s.format = CompressionFormat.sparse_24_bitmask) ∧
          ((wq = none ∧ iq = none) ∨
            (∃ w i, wq = some w ∧ iq = some i ∧ w.num_bits = 8 ∧ i.num_bits = 8 ∧
              (w.strategy = QuantizationStrategy.tensor ∨
                w.strategy = QuantizationStrategy.channel) ∧
              (i.strategy = QuantizationStrategy.tensor ∨
                i.strategy = QuantizationStrategy.token))))) ∧
    (∀ (mc : SchemeMinCaps) (fmt : String) (cap : Nat)
        (wq iq : Option QuantizationArgs) (ss : Option SparsityCompressionConfig),
      supports_cutlass_24 wq iq ss = Except.ok true →
      get_scheme mc fmt cap true wq iq ss =
        Except.error "NameError: name CompressedTensors24 is not defined") := by
  refine ⟨?_, ?_⟩
  · intro wq iq ss
    cases ss with
    | none => simp [supports_cutlass_24]
    | some s =>
      by_cases h1 : s.sparsity_structure = SparsityStructure.TWO_FOUR
      · by_cases h2 : s.format ∈ [CompressionFormat.dense, CompressionFormat.sparse_24_bitmask]
        · cases wq <;> cases iq <;>
            simp_all [supports_cutlass_24] <;>
            split <;> simp_all <;> split <;> simp_all <;>
            (constructor
             · rintro ⟨hab, hb8⟩
               exact ⟨by omega, hb8, by tauto, by tauto⟩
             · rintro ⟨ha8, hb8, hd1, hd2⟩
               omega)
        · cases wq <;> cases iq <;> simp_all [supports_cutlass_24]
      · cases wq <;> cases iq <;> simp_all [supports_cutlass_24]
  · intro mc fmt cap wq iq ss h
    simp [get_scheme, h]

/-- Witness for the amended claim C1 at a concrete quantized 2:4 layer. -/
theorem claim_C1_supports_cutlass_24_spec_witness :
    get_scheme sampleMinCaps "y" 95 true
        (some ⟨8, QuantizationType.int, QuantizationStrategy.tensor, true, false, none, none⟩)
        (some ⟨8, QuantizationType.int, QuantizationStrategy.token, true, true, none, none⟩)
        (some sparsity24Dense) =
      Except.error "NameError: name CompressedTensors24 is not defined" :=
  claim_C1_supports_cutlass_24_spec.2 sampleMinCaps "y" 95
    (some ⟨8, QuantizationType.int, QuantizationStrategy.tensor, true, false, none, none⟩)
    (some ⟨8, QuantizationType.int, QuantizationStrategy.token, true, true, none, none⟩)
    (some sparsity24Dense) (by decide)

/-- Claim C2: _is_fp8_w8a8 returns true exactly when both arguments are
present and float-typed, the weight is symmetric, not dynamic, with
strategy TENSOR or CHANNEL, and either the input is dynamic or the input
is symmetric with strategy TENSOR; for such pairs the classifier (in its
activation-quantizing branch, capability permitting) selects the FP8 w8a8
scheme with the static-input flag set iff the input is not dynamic. -/
theorem claim_C2_is_fp8_w8a8_spec :
    (∀ (wq iq : Option QuantizationArgs),
      _is_fp8_w8a8 wq iq = true ↔
        (∃ w i, wq = some w ∧ iq = some i ∧
          w.type = QuantizationType.float ∧ i.type = QuantizationType.float ∧
          w.symmetric = true ∧ w.dynamic = false ∧
          (w.strategy = QuantizationStrategy.tensor ∨
            w.strategy = QuantizationStrategy.channel) ∧
          (i.dynamic = true ∨
            (i.symmetric = true ∧ i.strategy = QuantizationStrategy.tensor)))) ∧
    (∀ (mc : SchemeMinCaps) (fmt : String) (cap : Nat) (vllm : Bool) (w i : QuantizationArgs),
      _is_fp8_w8a8 (some w) (some i) = true →
      is_activation_quantization_format fmt = true →
      mc.w8a8fp8 ≤ cap →
      _get_scheme_from_parts mc fmt cap vllm w (some i) =
        Except.ok (CompressedTensorsScheme.CompressedTensorsW8A8Fp8 w.strategy (!i.dynamic))) := by
  constructor
  · intro wq iq
    cases wq <;> cases iq <;> simp [_is_fp8_w8a8] <;> tauto
  · intro mc fmt cap vllm w i h hfmt hcap
    have hwna : _is_wNa16_group_channel w (some i) = false := by
      simp [_is_wNa16_group_channel]
    simp [_get_scheme_from_parts, hwna, hfmt, h, _check_scheme_supported, hcap]

/-- Witness for claim C2 at a concrete static FP8 pair. -/
theorem claim_C2_is_fp8_w8a8_spec_witness :
    _get_scheme_from_parts sampleMinCaps "float-quantized" 90 true
        ⟨8, QuantizationType.float, QuantizationStrategy.tensor, true, false, none, none⟩
        (some ⟨8, QuantizationType.float, QuantizationStrategy.tensor, true, false, none, none⟩) =
      Except.ok (CompressedTensorsScheme.CompressedTensorsW8A8Fp8
        QuantizationStrategy.tensor true) :=
  claim_C2_is_fp8_w8a8_spec.2 sampleMinCaps "float-quantized" 90 true
    ⟨8, QuantizationType.float, QuantizationStrategy.tensor, true, false, none, none⟩
    ⟨8, QuantizationType.float, QuantizationStrategy.tensor, true, false, none, none⟩
    (by decide) (by decide) (by decide)

/-- Claim C3: when _is_fp8_w8a8 holds (in the activation-quantizing branch)
but the device capability is below the FP8 w8a8 minimum capability,
_get_scheme_from_parts returns the FP8 weight-only CompressedTensorsW8A16Fp8
scheme instead of raising. -/
theorem claim_C3_fp8_w8a8_capability_fallback :
    ∀ (mc : SchemeMinCaps) (fmt : String) (cap : Nat) (vllm : Bool) (w i : QuantizationArgs),
      _is_fp8_w8a8 (some w) (some i) = true →
      is_activation_quantization_format fmt = true →
      cap < mc.w8a8fp8 →
      _get_scheme_from_parts mc fmt cap vllm w (some i) =
        Except.ok (CompressedTensorsScheme.CompressedTensorsW8A16Fp8 w.strategy (!i.dynamic)) := by
  intro mc fmt cap vllm w i h hfmt hcap
  have hwna : _is_wNa16_group_channel w (some i) = false := by
    simp [_is_wNa16_group_channel]
  have hn : ¬ (mc.w8a8fp8 ≤ cap) := by omega
  simp [_get_scheme_from_parts, hwna, hfmt, h, _check_scheme_supported, hn]

/-- Witness for claim C3 at a concrete FP8 pair on a capability-70 device. -/
theorem claim_C3_fp8_w8a8_capability_fallback_witness :
    _get_scheme_from_parts sampleMinCaps "float-quantized" 70 true
        ⟨8, QuantizationType.float, QuantizationStrategy.tensor, true, false, none, none⟩
        (some ⟨8, QuantizationType.float, QuantizationStrategy.tensor, true, true, none, none⟩) =
      Except.ok (CompressedTensorsScheme.CompressedTensorsW8A16Fp8
        QuantizationStrategy.tensor false) :=
  claim_C3_fp8_w8a8_capability_fallback sampleMinCaps "float-quantized" 70 true
    ⟨8, QuantizationType.float, QuantizationStrategy.tensor, true, false, none, none⟩
    ⟨8, QuantizationType.float, QuantizationStrategy.tensor, true, true, none, none⟩
    (by decide) (by decide) (by decide)

/-- Counterexample to claim C5 as stated: on a concrete dynamic-per-token
INT8 pair under an activation-quantizing format, the classifier does not
select the INT8 w8a8 scheme; the branch raises a NameError because the
source module never imports CompressedTensorsW8A8Int8. -/
theorem claim_C5_counterexample :
    _get_scheme_from_parts sampleMinCaps "int-quantized" 90 true
        ⟨8, QuantizationType.int, QuantizationStrategy.tensor, true, false, none, none⟩
        (some ⟨8, QuantizationType.int, QuantizationStrategy.token, true, true, none, none⟩) =
      Except.error "NameError: name CompressedTensorsW8A8Int8 is not defined" := by
  decide

/-- Claim C5 amended: _is_dynamic_token_w8a8 returns true exactly when both
sides are 8-bit, the weight strategy is TENSOR or CHANNEL, the input
strategy is TOKEN, the weight is symmetric, the weight is not dynamic and
the input is dynamic; for such pairs, under an activation-quantizing format
when neither FP8 branch matched, the classifier reaches the dynamic-token
branch but fails with a NameError at the unbound CompressedTensorsW8A8Int8
name instead of selecting the INT8 scheme. -/
theorem claim_C5_dynamic_token_w8a8_spec :
    (∀ (w i : QuantizationArgs),
      _is_dynamic_token_w8a8 w i = true ↔
        (w.num_bits = 8 ∧ i.num_bits = 8 ∧
          (w.strategy = QuantizationStrategy.tensor ∨
            w.strategy = QuantizationStrategy.channel) ∧
          i.strategy = QuantizationStrategy.token ∧
          w.symmetric = true ∧ w.dynamic = false ∧ i.dynamic = true)) ∧
    (∀ (mc : SchemeMinCaps) (fmt : String) (cap : Nat) (vllm : Bool) (w i : QuantizationArgs),
      _is_dynamic_token_w8a8 w i = true →
      _is_fp8_w8a8 (some w) (some i) = false →
      _is_fp8_w8a16 (some w) (some i) = false →
      is_activation_quantization_format fmt = true →
      _get_scheme_from_parts mc fmt cap vllm w (some i) =
        Except.error "NameError: name CompressedTensorsW8A8Int8 is not defined") := by
  have hiff : ∀ (w i : QuantizationArgs),
      _is_dynamic_token_w8a8 w i = true ↔
        (w.num_bits = 8 ∧ i.num_bits = 8 ∧
          (w.strategy = QuantizationStrategy.tensor ∨
            w.strategy = QuantizationStrategy.channel) ∧
          i.strategy = QuantizationStrategy.token ∧
          w.symmetric = true ∧ w.dynamic = false ∧ i.dynamic = true) := by
    intro w i
    have h8 : (w.num_bits = i.num_bits ∧ i.num_bits = 8) ↔
        (w.num_bits = 8 ∧ i.num_bits = 8) := by omega
    simp [_is_dynamic_token_w8a8]
    tauto
  refine ⟨hiff, ?_⟩
  intro mc fmt cap vllm w i h hfp8 hfp16 hfmt
  obtain ⟨hb1, hb2, hws, his, hsym, hwdyn, hidyn⟩ := (hiff w i).mp h
  have hwna : _is_wNa16_group_channel w (some i) = false := by
    simp [_is_wNa16_group_channel]
  have hstat : _is_static_tensor_w8a8 w i = false := by
    simp [_is_static_tensor_w8a8, hidyn]
  simp [_get_scheme_from_parts, hwna, hfmt, hfp8, hfp16, hstat, h]

/-- Witness for the amended claim C5 at a concrete INT8 dynamic-per-token
pair with a CHANNEL weight. -/
theorem claim_C5_dynamic_token_w8a8_spec_witness :
    _get_scheme_from_parts sampleMinCaps "int-quantized" 90 true
        ⟨8, QuantizationType.int, QuantizationStrategy.channel, true, false, none, none⟩
        (some ⟨8, QuantizationType.int, QuantizationStrategy.token, true, true, none, none⟩) =
      Except.error "NameError: name CompressedTensorsW8A8Int8 is not defined" :=
  claim_C5_dynamic_token_w8a8_spec.2 sampleMinCaps "int-quantized" 90 true
    ⟨8, QuantizationType.int, QuantizationStrategy.channel, true, false, none, none⟩
    ⟨8, QuantizationType.int, QuantizationStrategy.token, true, true, none, none⟩
    (by decide) (by decide) (by decide) (by decide)

/-- Counterexample to claim C6 as stated: a GROUP, symmetric, static,
4-bit weight-only layer under the dense format makes the classifier raise
NotImplementedError instead of selecting a weight-only N-bit scheme; the
working weight-only branch additionally requires the pack-quantized format
with a supported bit width. -/
theorem claim_C6_counterexample :
    _get_scheme_from_parts sampleMinCaps CompressionFormat.dense 90 true
        ⟨4, QuantizationType.int, QuantizationStrategy.group, true, false, some 128, none⟩ none =
      Except.error "NotImplementedError: No compressed-tensors compatible scheme was found." := by
  decide

/-- Claim C6 amended: for every weight_quant with strategy GROUP,
symmetric, not dynamic, and input_quant absent, provided vllm is available
and the quant format is pack-quantized with num_bits in the WNA16
supported set, the classifier selects the weight-only CompressedTensorsWNA16
scheme whose group_size equals weight_quant.group_size; under the
marlin-24 format the same weight makes the branch raise a NameError (the
W4A16SPARSE24_SUPPORTED_BITS name is never bound), and for other formats
or bit widths the classifier raises. -/
theorem claim_C6_wNa16_group_scheme :
    ∀ (mc : SchemeMinCaps) (cap : Nat) (w : QuantizationArgs),
      w.strategy = QuantizationStrategy.group → w.symmetric = true → w.dynamic = false →
      ((_get_scheme_from_parts mc CompressionFormat.marlin_24 cap true w none =
          Except.error "NameError: name W4A16SPARSE24_SUPPORTED_BITS is not defined") ∧
       (w.num_bits ∈ WNA16_SUPPORTED_BITS →
        _get_scheme_from_parts mc CompressionFormat.pack_quantized cap true w none =
          Except.ok (CompressedTensorsScheme.CompressedTensorsWNA16 w.num_bits w.strategy
            w.group_size w.actorder))) := by
  intro mc cap w hst hsym hdyn
  have hwna : _is_wNa16_group_channel w none = true := by
    simp [_is_wNa16_group_channel, hst, hsym, hdyn]
  have hne : ¬ (CompressionFormat.pack_quantized = CompressionFormat.marlin_24) := by decide
  constructor
  · simp [_get_scheme_from_parts, hwna]
  · intro hbits
    simp [_get_scheme_from_parts, hwna, hbits, hne]

/-- Witness for the amended claim C6 at a concrete 4-bit GROUP weight. -/
theorem claim_C6_wNa16_group_scheme_witness :
    _get_scheme_from_parts sampleMinCaps CompressionFormat.pack_quantized 90 true
        ⟨4, QuantizationType.int, QuantizationStrategy.group, true, false, some 128, none⟩ none =
      Except.ok (CompressedTensorsScheme.CompressedTensorsWNA16 4 QuantizationStrategy.group
        (some 128) none) :=
  (claim_C6_wNa16_group_scheme sampleMinCaps 90
      ⟨4, QuantizationType.int, QuantizationStrategy.group, true, false, some 128, none⟩
      rfl rfl rfl).2 (by decide)

/-- Counterexample to claim C8 as stated: a purely 2:4-sparse layer with
no quantization does not receive the 2:4-sparse scheme; get_quant_method
propagates the NameError raised at the unbound CompressedTensors24 name. -/
theorem claim_C8_counterexample :
    get_quant_method sampleMinCaps "x" 95 true false LayerKind.linearBase none none
        (some ⟨"sparse-24-bitmask", "2:4"⟩) =
      Except.error "NameError: name CompressedTensors24 is not defined" := by
  decide

/-- Claim C8 amended: when the matched weight_quant is absent and the 2:4
check does not hold, get_scheme returns none and get_quant_method falls
back to the unquantized linear method; the 2:4 check is evaluated before
this fallback, but a purely sparse layer with no quantization does not
receive the 2:4-sparse scheme: the branch is taken and fails with a
NameError at the unbound CompressedTensors24 name, which get_quant_method
propagates. -/
theorem claim_C8_unquantized_fallback :
    (∀ (mc : SchemeMinCaps) (fmt : String) (cap : Nat) (vllm : Bool)
        (iq : Option QuantizationArgs) (ss : Option SparsityCompressionConfig),
      supports_cutlass_24 none iq ss = Except.ok false →
      get_scheme mc fmt cap vllm none iq ss = Except.ok none ∧
      get_quant_method mc fmt cap vllm false LayerKind.linearBase none iq ss =
        Except.ok (some QuantMethod.unquantizedLinearMethod)) ∧
    (∀ (mc : SchemeMinCaps) (fmt : String) (cap : Nat) (s : SparsityCompressionConfig),
      s.sparsity_structure = SparsityStructure.TWO_FOUR →
      (s.format = CompressionFormat.dense ∨ s.format = CompressionFormat.sparse_24_bitmask) →
      get_scheme mc fmt cap true none none (some s) =
        Except.error "NameError: name CompressedTensors24 is not defined" ∧
      get_quant_method mc fmt cap true false LayerKind.linearBase none none (some s) =
        Except.error "NameError: name CompressedTensors24 is not defined") := by
  constructor
  · intro mc fmt cap vllm iq ss h
    have hg : get_scheme mc fmt cap vllm none iq ss = Except.ok none := by
      simp [get_scheme, h]
    exact ⟨hg, by simp [get_quant_method, hg]⟩
  · intro mc fmt cap s h1 h2
    have hsup : supports_cutlass_24 none none (some s) = Except.ok true := by
      rcases h2 with h2 | h2 <;> simp [supports_cutlass_24, h1, h2]
    have hg : get_scheme mc fmt cap true none none (some s) =
        Except.error "NameError: name CompressedTensors24 is not defined" := by
      simp [get_scheme, hsup]
    exact ⟨hg, by simp [get_quant_method, hg]⟩

/-- Witness for the amended claim C8: a layer with no quantization and no
sparsity falls back to the unquantized method, and a purely 2:4-sparse
layer hits the NameError. -/
theorem claim_C8_unquantized_fallback_witness :
    (get_scheme sampleMinCaps "x" 90 true none none none = Except.ok none ∧
      get_quant_method sampleMinCaps "x" 90 true false LayerKind.linearBase none none none =
        Except.ok (some QuantMethod.unquantizedLinearMethod)) ∧
    get_scheme sampleMinCaps "z" 95 true none none (some sparsity24Dense) =
      Except.error "NameError: name CompressedTensors24 is not defined" :=
  ⟨claim_C8_unquantized_fallback.1 sampleMinCaps "x" 90 true none none (by decide),
    (claim_C8_unquantized_fallback.2 sampleMinCaps "z" 95 sparsity24Dense (by decide)
      (Or.inl (by decide))).1⟩

/-- Witness for claim C9: a concrete run of get_scheme that returns the
WNA16 scheme on a capability-90 device satisfies the scheme minimum
capability bound. -/
theorem claim_C9_capability_gate_witness :
    CompressedTensorsScheme.get_min_capability sampleMinCaps
        (CompressedTensorsScheme.CompressedTensorsWNA16 4 QuantizationStrategy.group
          (some 128) none) ≤ 90 :=
  claim_C9_capability_gate.1 sampleMinCaps CompressionFormat.pack_quantized 90 true
    (some ⟨4, QuantizationType.int, QuantizationStrategy.group, true, false, some 128, none⟩)
    none none
    (CompressedTensorsScheme.CompressedTensorsWNA16 4 QuantizationStrategy.group
      (some 128) none) (by decide)
